import Mathlib

/-!
Shallow embedding of the "New Token Scanner" repository
(`src/new_token_scanner.py`, `src/file_utils.py`).

Machine integers of the Python source are arbitrary-precision, so block
heights and counters are `Int`/`Nat`.  Fallible RPC operations are modelled
as `Except String α` values supplied by the environment; the Python
`try/except` structure of the source is translated into pattern matches on
those values.  The SQLite table `tokens` (with its `UNIQUE` constraint on
the `address` column) is modelled as a list of rows plus the next rowid.
-/

deriving instance DecidableEq for Except

namespace TokenScanner

/-- Truthiness of an optional Python string: `None` and `""` are falsy,
every non-empty string is truthy.  Used wherever the source tests a
string-or-None value with `if not x` / `any([...])`. -/
def truthyStr : Option String → Bool
  | none => false
  | some s => !(s == "")

/-- Python `str.lower()` as applied to addresses (ASCII hex strings):
`Char.toLower` mapped over the character list.  This is extensionally
`String.toLower`, written over `String.data` so that closed instances
reduce inside the kernel. -/
def py_lower (s : String) : String := ⟨s.data.map Char.toLower⟩

/-- One row of the SQLite `tokens` table created by `init_db`
(`new_token_scanner.py` lines 101-124).  `id` is the INTEGER PRIMARY KEY
rowid, `has_transfer_logs` is stored as the INTEGER 1/0 exactly as
`save_token` writes it, and `extra_json` is the serialized TEXT column. -/
structure TokenRow where
  id : Nat
  chain : String
  address : String
  creation_block : Int
  found_block : Int
  tx_hash : String
  timestamp_utc : String
  name : Option String
  symbol : Option String
  decimals : Option Int
  total_supply : Option String
  has_transfer_logs : Int
  extra_json : String
deriving DecidableEq

/-- The `tokens` table: rows in rowid order plus the next rowid to be
assigned.  The `UNIQUE` constraint on `address` is enforced by
`save_token` below, mirroring SQLite's `INSERT OR IGNORE`. -/
structure TokensDb where
  rows : List TokenRow
  nextId : Nat
deriving DecidableEq

/-- Database state produced by `init_db` on a fresh path: an empty
`tokens` table (SQLite rowids start at 1). -/
def init_db : TokensDb := ⟨[], 1⟩

/-- Embedding of `already_seen` (lines 161-164): the lookup lowercases the
queried address and tests membership on the `address` column only (no
chain label in the WHERE clause). -/
def already_seen (db : TokensDb) (address : String) : Bool :=
  db.rows.any (fun r => r.address == py_lower address)

/-- Auxiliary attribute bag built by `inspect_contract`: the `extra_json`
dict can carry a transfer-log count and/or a transfer-log error string
(the `*_call_raw` keys are unreachable once call results are typed). -/
structure ExtraJson where
  transfer_log_count : Option Nat
  transfer_log_error : Option String
deriving DecidableEq

/-- Serialization of the extra attribute bag, standing for
`json.dumps(data.get("extra_json", {}))` in `save_token`. -/
def encodeExtra (e : ExtraJson) : String :=
  let parts :=
    (match e.transfer_log_count with
     | some n => ["\"transfer_log_count\": " ++ toString n]
     | none => []) ++
    (match e.transfer_log_error with
     | some s => ["\"transfer_log_error\": \"" ++ s ++ "\""]
     | none => [])
  "\x7b" ++ String.intercalate ", " parts ++ "\x7d"

/-- The `data` dict assembled in `main_loop` (lines 335-348) and passed to
`save_token`. -/
structure TokenData where
  chain : String
  address : String
  creation_block : Int
  found_block : Int
  tx_hash : String
  timestamp_utc : String
  name : Option String
  symbol : Option String
  decimals : Option Int
  total_supply : Option String
  has_transfer_logs : Bool
  extra_json : ExtraJson
deriving DecidableEq

/-- Row written by `save_token`'s INSERT: the address is lowercased, the
transfer-log boolean becomes 1/0, the attribute bag is serialized. -/
def row_of_data (id : Nat) (d : TokenData) : TokenRow :=
  { id := id
    chain := d.chain
    address := py_lower d.address
    creation_block := d.creation_block
    found_block := d.found_block
    tx_hash := d.tx_hash
    timestamp_utc := d.timestamp_utc
    name := d.name
    symbol := d.symbol
    decimals := d.decimals
    total_supply := d.total_supply
    has_transfer_logs := if d.has_transfer_logs then 1 else 0
    extra_json := encodeExtra d.extra_json }

/-- Embedding of `save_token` (lines 167-186): `INSERT OR IGNORE` against
the `UNIQUE(address)` constraint — if any existing row already holds the
lowercased address the statement is a no-op, otherwise a new row is
appended with the next rowid.  The chain label plays no part in the
uniqueness decision. -/
def save_token (db : TokensDb) (d : TokenData) : TokensDb :=
  if db.rows.any (fun r => r.address == py_lower d.address) then db
  else ⟨db.rows ++ [row_of_data db.nextId d], db.nextId + 1⟩

/-- Behaviour of the chain RPC endpoint for the five calls issued by
`inspect_contract` against one candidate address: each call either
succeeds with a typed value or raises (carried as the exception text).
`getLogs` succeeding yields the number of matching Transfer logs. -/
structure RpcBehavior where
  nameCall : Except String String
  symbolCall : Except String String
  decimalsCall : Except String Int
  totalSupplyCall : Except String Int
  getLogs : Except String Nat
deriving DecidableEq

/-- Embedding of `safe_contract_call` (lines 127-137): every exception is
caught and returned as `(False, str(e))`; success is `(True, value)`. -/
def safe_contract_call {α : Type} (raw : Except String α) : Bool × (α ⊕ String) :=
  match raw with
  | .ok v => (true, Sum.inl v)
  | .error e => (false, Sum.inr e)

/-- Structured probe output (the `info` dict of `inspect_contract`,
lines 190-197): every metadata field present-or-absent, the transfer-log
boolean, and the auxiliary attribute bag. -/
structure ProbeResult where
  name : Option String
  symbol : Option String
  decimals : Option Int
  total_supply : Option String
  has_transfer_logs : Bool
  extra_json : ExtraJson
deriving DecidableEq

/-- Embedding of `inspect_contract` (lines 189-236): four metadata calls
through `safe_contract_call` (a failure leaves the field at None), then a
`get_logs` query whose own exception is caught and noted in the attribute
bag while `has_transfer_logs` stays False. -/
def inspect_contract (b : RpcBehavior) : ProbeResult :=
  let info : ProbeResult :=
    { name := none, symbol := none, decimals := none, total_supply := none
      has_transfer_logs := false
      extra_json := { transfer_log_count := none, transfer_log_error := none } }
  let info := match safe_contract_call b.nameCall with
    | (true, Sum.inl v) => { info with name := some v }
    | _ => info
  let info := match safe_contract_call b.symbolCall with
    | (true, Sum.inl v) => { info with symbol := some v }
    | _ => info
  let info := match safe_contract_call b.decimalsCall with
    | (true, Sum.inl v) => { info with decimals := some v }
    | _ => info
  let info := match safe_contract_call b.totalSupplyCall with
    | (true, Sum.inl v) => { info with total_supply := some (toString v) }
    | _ => info
  match b.getLogs with
  | .ok n =>
      { info with has_transfer_logs := decide (0 < n)
                  extra_json := { info.extra_json with transfer_log_count := some n } }
  | .error e =>
      { info with extra_json := { info.extra_json with transfer_log_error := some e } }

/-- Transaction receipt as observed through the two field-naming
conventions probed in `main_loop` (lines 288-302): attribute-style
`contract_address` and dict-style `contractAddress`. -/
structure Receipt where
  contract_address : Option String
  contractAddress : Option String
deriving DecidableEq

/-- Resolution of the created-contract address (lines 288-302): attribute
access first, then dict access, each guarded by Python falsiness
(`if not contract_address`), first truthy value wins. -/
def resolved_contract_address (r : Receipt) : Option String :=
  if truthyStr r.contract_address then r.contract_address
  else if truthyStr r.contractAddress then r.contractAddress
  else none

/-- Transaction as consumed by the scan loop: the declared recipient
(absent for contract creations), the hash, the behaviour of the
`get_transaction_receipt` call, and the RPC behaviour the probe will see
for the created address. -/
structure Tx where
  to_addr : Option String
  hash : String
  receipt : Except String Receipt
  probe : RpcBehavior
deriving DecidableEq

/-- A block fetched with full transactions: timestamp plus the listed
transaction order. -/
structure Block where
  timestamp : Int
  transactions : List Tx
deriving DecidableEq

/-- Recognized configuration options of the scanner that the loop body
reads (`parse_args`, lines 389-404). -/
structure Args where
  chain : String
  start_block : Option Int
  confirmations : Int
  poll_interval : Int
  save_all : Bool
  stop_at_count : Int
  run_duration : Nat
deriving DecidableEq

/-- Process-local scanner state threaded through loop ticks: the
watermark `last_processed_block` and the SQLite store. -/
structure ScannerState where
  last_processed_block : Option Int
  db : TokensDb
deriving DecidableEq

/-- Initial state of `main_loop` (line 240): the watermark starts at the
configured start height, or unset. -/
def initial_state (args : Args) (db : TokensDb) : ScannerState :=
  ⟨args.start_block, db⟩

/-- Chain behaviour during one tick of the loop: the head-height read,
the per-height block fetches, and the elapsed run time observed at the
run-duration check. -/
structure TickEnv where
  blockNumber : Except String Int
  blocks : Int → Except String Block
  elapsed_run : Nat

/-- Rendering of `datetime.fromtimestamp(ts, tz=utc).isoformat()`; the
exact ISO text is datetime-library behaviour outside this repository and
is modelled as a rendering of the Unix timestamp. -/
def iso_utc (t : Int) : String := toString t

/-- Heights and timestamp context for processing one block's
transactions: the block height `blk`, the tick's `target_block`, and the
block timestamp. -/
structure BlockCtx where
  blk : Int
  target : Int
  timestamp : Int
deriving DecidableEq

/-- The `data` dict built for a candidate (lines 335-348): note that
`found_block` is `target_block`, and creation height is the scanned
block. -/
def candidate_data (args : Args) (checksum_addr : String) (ctx : BlockCtx)
    (txhash : String) (info : ProbeResult) : TokenData :=
  { chain := args.chain
    address := checksum_addr
    creation_block := ctx.blk
    found_block := ctx.target
    tx_hash := txhash
    timestamp_utc := iso_utc ctx.timestamp
    name := info.name
    symbol := info.symbol
    decimals := info.decimals
    total_supply := info.total_supply
    has_transfer_logs := info.has_transfer_logs
    extra_json := info.extra_json }

/-- The plausibility heuristic (lines 350-355): Python `any` over the
truthiness of name and symbol, `decimals is not None`, and the
transfer-log boolean. -/
def looks_like_token (d : TokenData) : Bool :=
  truthyStr d.name || truthyStr d.symbol || d.decimals.isSome || d.has_transfer_logs

/-- Processing of one transaction of a scanned block (lines 273-376).
`cf` stands for `Web3.to_checksum_address`.  Returns the updated store
and whether the stop-at-count early return fired.  Non-creation
transactions, receipt failures, unresolved addresses and already-seen
addresses leave the store untouched. -/
def process_tx (cf : String → String) (args : Args) (ctx : BlockCtx)
    (tx : Tx) (db : TokensDb) : TokensDb × Bool :=
  match tx.to_addr with
  | some _ => (db, false)
  | none =>
    match tx.receipt with
    | .error _ => (db, false)
    | .ok receipt =>
      match resolved_contract_address receipt with
      | none => (db, false)
      | some caddr =>
        let checksum_addr := cf caddr
        if already_seen db checksum_addr then (db, false)
        else
          let info := inspect_contract tx.probe
          let data := candidate_data args checksum_addr ctx tx.hash info
          if looks_like_token data || args.save_all then
            let db' := save_token db data
            if args.stop_at_count > 0 && args.stop_at_count ≤ (db'.rows.length : Int) then
              (db', true)
            else (db', false)
          else (db, false)

/-- Transactions of one block in listed order; the stop-at-count return
aborts the remainder of the block. -/
def process_txs (cf : String → String) (args : Args) (ctx : BlockCtx) :
    List Tx → TokensDb → TokensDb × Bool
  | [], db => (db, false)
  | tx :: rest, db =>
    match process_tx cf args ctx tx db with
    | (db', true) => (db', true)
    | (db', false) => process_txs cf args ctx rest db'

/-- Python `range(lo, hi + 1)` over integers. -/
def int_range (lo hi : Int) : List Int :=
  (List.range (hi + 1 - lo).toNat).map (fun n => lo + Int.ofNat n)

/-- Outcome of the per-height loop of one tick. -/
structure LoopResult where
  lpb : Int
  db : TokensDb
  processed : List Int
  failedFetch : List Int
  stopped : Bool
deriving DecidableEq

/-- The per-tick height loop (lines 264-378): fetch each height in
increasing order; a failed fetch logs and skips the height (the
assignment `last_processed_block = blk` at line 378 is skipped for it,
but later successful heights still execute it); a successful height has
its transactions processed and then advances the watermark to that
height; the stop-at-count early return leaves the loop with the
watermark at the last completed height. -/
def height_loop (cf : String → String) (args : Args) (target : Int) (env : TickEnv) :
    List Int → Int → TokensDb → LoopResult
  | [], lpb, db => ⟨lpb, db, [], [], false⟩
  | blk :: rest, lpb, db =>
    match env.blocks blk with
    | .error _ =>
      let r := height_loop cf args target env rest lpb db
      { r with failedFetch := blk :: r.failedFetch }
    | .ok block =>
      match process_txs cf args ⟨blk, target, block.timestamp⟩ block.transactions db with
      | (db', true) => ⟨lpb, db', [], [], true⟩
      | (db', false) =>
        let r := height_loop cf args target env rest blk db'
        { r with processed := blk :: r.processed }

/-- How one tick of `main_loop` ended. -/
inductive TickOutcome where
  | headError
  | noNewBlock
  | completed
  | stoppedByCount
  | stoppedByDuration
deriving DecidableEq

/-- Observable result of one tick: the successor state, how the tick
ended, the heights whose block was fetched and fully iterated, the
heights whose fetch failed, and the sleep duration issued (None when the
tick returned from the loop). -/
structure TickResult where
  state : ScannerState
  outcome : TickOutcome
  processed : List Int
  failedFetch : List Int
  slept : Option Int
deriving DecidableEq

/-- One tick of `main_loop` (lines 244-386).  On a failed head read the
loop sleeps `max(5, poll_interval)` and retries with no state change
(lines 246-250).  An unset watermark is initialized to `latest - 1`
(lines 252-253).  If no confirmed height is newer than the watermark the
tick sleeps one poll interval (lines 255-262).  Otherwise the height
loop runs over `(watermark, latest - confirmations + 1]`, an export
snapshot is written, and the run-duration budget may end the loop. -/
def main_tick (cf : String → String) (args : Args) (st : ScannerState)
    (env : TickEnv) : TickResult :=
  match env.blockNumber with
  | .error _ => ⟨st, .headError, [], [], some (max 5 args.poll_interval)⟩
  | .ok latest =>
    let lpb := st.last_processed_block.getD (latest - 1)
    if latest ≤ lpb then
      ⟨⟨some lpb, st.db⟩, .noNewBlock, [], [], some args.poll_interval⟩
    else
      let target := latest - args.confirmations + 1
      if target ≤ lpb then
        ⟨⟨some lpb, st.db⟩, .noNewBlock, [], [], some args.poll_interval⟩
      else
        let r := height_loop cf args target env (int_range (lpb + 1) target) lpb st.db
        if r.stopped then
          ⟨⟨some r.lpb, r.db⟩, .stoppedByCount, r.processed, r.failedFetch, none⟩
        else if args.run_duration ≠ 0 && args.run_duration ≤ env.elapsed_run then
          ⟨⟨some r.lpb, r.db⟩, .stoppedByDuration, r.processed, r.failedFetch, none⟩
        else
          ⟨⟨some r.lpb, r.db⟩, .completed, r.processed, r.failedFetch, some args.poll_interval⟩

/-- A value of one SQLite column as read back by the export SELECT:
NULL, TEXT, or INTEGER. -/
inductive SqlValue where
  | null
  | text (s : String)
  | int (i : Int)
deriving DecidableEq

/-- Optional TEXT column value. -/
def optText : Option String → SqlValue
  | none => SqlValue.null
  | some s => SqlValue.text s

/-- Optional INTEGER column value. -/
def optInt : Option Int → SqlValue
  | none => SqlValue.null
  | some i => SqlValue.int i

/-- The fixed column order of the export SELECT in `export_csv_json`
(line 142); `headers` in the source is the cursor description of exactly
this list. -/
def export_headers : List String :=
  ["chain", "address", "creation_block", "found_block", "tx_hash",
   "timestamp_utc", "name", "symbol", "decimals", "total_supply",
   "has_transfer_logs", "extra_json"]

/-- One selected row, in the fixed column order. -/
def rowToValues (r : TokenRow) : List SqlValue :=
  [SqlValue.text r.chain, SqlValue.text r.address, SqlValue.int r.creation_block,
   SqlValue.int r.found_block, SqlValue.text r.tx_hash, SqlValue.text r.timestamp_utc,
   optText r.name, optText r.symbol, optInt r.decimals, optText r.total_supply,
   SqlValue.int r.has_transfer_logs, SqlValue.text r.extra_json]

/-- Insertion into an id-ordered row list (stable for equal ids). -/
def insertById (r : TokenRow) : List TokenRow → List TokenRow
  | [] => [r]
  | x :: xs => if r.id ≤ x.id then r :: x :: xs else x :: insertById r xs

/-- The `ORDER BY id` of the export SELECT. -/
def sortById (rs : List TokenRow) : List TokenRow :=
  rs.foldr insertById []

/-- Content of the tabular artifact: one header row naming the columns,
then one row of column values per record. -/
structure CsvFile where
  header : List String
  rows : List (List SqlValue)
deriving DecidableEq

/-- Content of the structured artifact: a list of objects, each pairing
the column names with that record's values. -/
abbrev JsonContent := List (List (String × SqlValue))

/-- Embedding of `export_csv_json` (lines 140-158): SELECT all rows
ORDER BY id, write the tabular file (header row then data rows) and the
structured file (list of name/value objects).  Both files are opened in
write mode `"w"`, so the produced contents ignore whatever the files
held before — the previous contents are passed in only to model the
overwrite. -/
def export_csv_json (db : TokensDb) (prevCsv : CsvFile) (prevJson : JsonContent) :
    CsvFile × JsonContent :=
  let _ := prevCsv
  let _ := prevJson
  let ordered := sortById db.rows
  let valueRows := ordered.map rowToValues
  (⟨export_headers, valueRows⟩,
   valueRows.map (fun vs => export_headers.zip vs))

/-- Stores reachable through the scanner's only write path: the empty
table produced by `init_db`, extended by `save_token` calls. -/
inductive Reachable : TokensDb → Prop
  | init : Reachable init_db
  | save (db : TokensDb) (d : TokenData) : Reachable db → Reachable (save_token db d)

/-- Plausibility as the specification words it for the refinement
comparison of claim C5: a metadata field merely being present counts,
with no truthiness test on name and symbol. -/
def presence_spec_filter (d : TokenData) : Bool :=
  d.name.isSome || d.symbol.isSome || d.decimals.isSome || d.has_transfer_logs

/-- A transaction whose created-contract address (if it resolves one) is
already recorded in `db` under the checksum function `cf`. -/
def tx_candidate_ok (cf : String → String) (db : TokensDb) (tx : Tx) : Prop :=
  tx.to_addr = none → ∀ rc, tx.receipt = Except.ok rc →
    ∀ a, resolved_contract_address rc = some a → already_seen db (cf a) = true

/-- Every candidate address observable in any block the environment can
deliver is already recorded in `db`: the hypothesis of the idempotent
re-scan property. -/
def tick_candidates_seen (cf : String → String) (db : TokensDb) (env : TickEnv) : Prop :=
  ∀ b block, env.blocks b = Except.ok block →
    ∀ tx ∈ block.transactions, tx_candidate_ok cf db tx

/-- Concrete stand-in for `Web3.to_checksum_address` in closed scenarios
(EIP-55 checksumming only changes letter case; the scanner lowercases
before every store access, so the identity is an admissible instance). -/
def checksum_id (s : String) : String := s

/-- Default configuration: chain `eth`, no explicit start height, 3
confirmations, 4-second poll interval, no overrides. -/
def args_default : Args := ⟨"eth", none, 3, 4, false, 0, 0⟩

/-- Default configuration with the save-all override enabled. -/
def args_saveall : Args := { args_default with save_all := true }

/-- Configuration for the failed-height scenario: 1 confirmation so the
whole fresh range is eligible. -/
def args_c1 : Args := ⟨"eth", some 95, 1, 4, false, 0, 0⟩

/-- State with the watermark at height 95 over an empty store. -/
def st_c1 : ScannerState := ⟨some 95, init_db⟩

/-- State with the watermark at height 7 over an empty store. -/
def st_c8 : ScannerState := ⟨some 7, init_db⟩

/-- Tick environment where the fetch of block 96 fails while heights 97
and 98 succeed (with no transactions). -/
def env_c1 : TickEnv :=
  ⟨.ok 98, fun b => if b = 96 then .error "rpc timeout" else .ok ⟨0, []⟩, 0⟩

/-- Tick environment with chain head 100; no block fetch ever succeeds
(none is attempted in the scenario). -/
def env_c2 : TickEnv := ⟨.ok 100, fun _ => .error "unused", 0⟩

/-- Tick environment whose head-height read fails. -/
def env_c8 : TickEnv := ⟨.error "connection reset", fun _ => .error "unused", 0⟩

/-- Probe behaviour where all four metadata calls raise and the log query
returns no logs. -/
def probe_all_fail : RpcBehavior :=
  ⟨.error "no name", .error "no symbol", .error "no decimals", .error "no supply", .ok 0⟩

/-- Probe behaviour returning the empty string for `name()` and failing
everything else, with no transfer logs. -/
def probe_empty_name : RpcBehavior :=
  ⟨.ok "", .error "no symbol", .error "no decimals", .error "no supply", .ok 0⟩

/-- Fully populated candidate data under chain label `eth` with a
mixed-case address. -/
def d_eth : TokenData :=
  ⟨"eth", "0xAbCd", 10, 12, "0xt1", "1000", some "Tok", some "TK", some 18,
   some "100", true, ⟨some 2, none⟩⟩

/-- Same address as `d_eth` (different letter case) under chain label
`bsc`. -/
def d_bsc : TokenData := { d_eth with chain := "bsc", address := "0xABCD", tx_hash := "0xt2" }

/-- Store holding exactly the `d_eth` record. -/
def db_one : TokensDb := save_token init_db d_eth

/-- ProbeResult-shaped data with name `Foo` and every other field
absent. -/
def d_foo : TokenData :=
  ⟨"eth", "0xa1", 1, 2, "0xt", "0", some "Foo", none, none, none, false, ⟨none, none⟩⟩

/-- Candidate data with every metadata field absent and no transfer
logs. -/
def d_absent : TokenData := { d_foo with name := none }

/-- Candidate data whose probed name is the empty string and everything
else absent. -/
def d_empty_name : TokenData := { d_foo with name := some "" }

/-- Candidate data whose probed symbol is the empty string and everything
else absent. -/
def d_empty_symbol : TokenData := { d_foo with name := none, symbol := some "" }

/-- Candidate data with decimals 0 and every other field absent. -/
def d_dec0 : TokenData := { d_foo with name := none, decimals := some 0 }

/-- Contract-creation transaction whose probe yields no usable metadata. -/
def tx_no_metadata : Tx := ⟨none, "0xdead", .ok ⟨some "0xCafe", none⟩, probe_all_fail⟩

/-- Contract-creation transaction whose probe yields only an empty-string
name. -/
def tx_empty_name : Tx := ⟨none, "0xbeef", .ok ⟨some "0xF00d", none⟩, probe_empty_name⟩

/-- Block context: scanning height 50 with target height 52. -/
def ctx0 : BlockCtx := ⟨50, 52, 1234⟩

/-- Block containing one creation transaction for the `d_eth` address
(mixed case). -/
def blk_c3 : Block := ⟨0, [⟨none, "0xh1", .ok ⟨some "0xAbCd", none⟩, probe_all_fail⟩]⟩

/-- Tick environment that always delivers `blk_c3`. -/
def env_c3 : TickEnv := ⟨.ok 60, fun _ => .ok blk_c3, 0⟩

/-- State with watermark 55 over the one-record store, used for the
re-scan scenario. -/
def st_c3 : ScannerState := ⟨some 55, db_one⟩

/-- Empty previous tabular artifact. -/
def csv_empty : CsvFile := ⟨[], []⟩

/-- Non-empty previous tabular artifact, to exercise the overwrite. -/
def csv_stale : CsvFile := ⟨["stale"], [[SqlValue.text "stale"]]⟩

end TokenScanner

namespace FileUtils

/-- Environment of one `split_novel_by_chapters` call
(`file_utils.py` lines 17-44): the outcome of the initial file read, the
outcome of the chapter computation performed by `_split_large_novel` /
`_split_small_novel` on the read content (regex-library dependent, and —
like any statement of the try block — allowed to raise), and the outcome
of the fallback re-read performed inside the except handler. -/
structure SplitEnv where
  readFile : Except String String
  splitBody : String → Except String (List String)
  rereadFile : Except String String

/-- The except-handler fallback (lines 37-44): re-read the file and
return the whole document as one chapter; if even the re-read fails,
return a one-element placeholder list. -/
def fallback_chapter (env : SplitEnv) : List String :=
  match env.rereadFile with
  | .ok c => [c]
  | .error _ => ["Unable to read file contents"]

/-- Embedding of `split_novel_by_chapters` (lines 17-44): read the file,
compute chapters, replace an empty result with the whole document as a
single chapter; any exception in the try block lands in the fallback
handler. -/
def split_novel_by_chapters (env : SplitEnv) : List String :=
  match env.readFile with
  | .error _ => fallback_chapter env
  | .ok content =>
    match env.splitBody content with
    | .error _ => fallback_chapter env
    | .ok chapters => if chapters = [] then [content] else chapters

/-- Environment for a readable file whose chapter computation raises. -/
def env_split : SplitEnv :=
  ⟨.ok "Chapter 1 text", fun _ => .error "regex failure", .ok "Chapter 1 text"⟩

end FileUtils

namespace TokenScanner

/-- C2 (counterexample): with chain head 100, confirmations 3 and the
watermark unset, the first tick leaves the watermark at 99 — not 98 —
and processes no block at all (in particular not 96, 97, 98), refuting
the claimed first-tick scenario. -/
theorem first_tick_scenario_cex :
    (main_tick checksum_id args_default (initial_state args_default init_db) env_c2).state.last_processed_block = some 99 ∧
    (main_tick checksum_id args_default (initial_state args_default init_db) env_c2).processed = [] ∧
    (main_tick checksum_id args_default (initial_state args_default init_db) env_c2).state.last_processed_block ≠ some 98 := by
  decide

/-- C2 (amended): with chain head 100, confirmations 3 and the watermark
unset, the first tick initializes the watermark to `head - 1 = 99`;
since the safe height 98 does not exceed 99, the tick processes no
blocks, leaves the store untouched, and sleeps one poll interval. -/
theorem first_tick_initializes_watermark :
    ∀ (cf : String → String) (blocks : Int → Except String Block) (elapsed : Nat) (db : TokensDb),
      main_tick cf args_default (initial_state args_default db) ⟨.ok 100, blocks, elapsed⟩ =
        ⟨⟨some 99, db⟩, .noNewBlock, [], [], some 4⟩ := by
  intro cf blocks elapsed db
  rfl

/-- C8 (counterexample): with the configured poll interval 4, a failed
head read sleeps 5 seconds — `max(5, poll_interval)` — not one poll
interval, refuting the claim for this configured value. -/
theorem head_error_sleep_cex :
    args_default.poll_interval = 4 ∧
    (main_tick checksum_id args_default st_c8 env_c8).slept = some 5 ∧
    (main_tick checksum_id args_default st_c8 env_c8).slept ≠ some 4 ∧
    (main_tick checksum_id args_default st_c8 env_c8).state = st_c8 := by
  decide

/-- C8 (amended): when the per-tick head read fails, the tick sleeps
`max(5, poll_interval)` seconds and retries with no state change, for
every configured poll interval. -/
theorem head_error_sleeps_and_retries :
    ∀ (cf : String → String) (args : Args) (st : ScannerState) (env : TickEnv) (e : String),
      env.blockNumber = .error e →
      main_tick cf args st env = ⟨st, .headError, [], [], some (max 5 args.poll_interval)⟩ := by
  intro cf args st env e h
  unfold main_tick
  rw [h]

/-- C8 (witness): the amended statement applied to the concrete failing
environment. -/
theorem head_error_sleeps_and_retries_witness :
    main_tick checksum_id args_default st_c8 env_c8 =
      ⟨st_c8, .headError, [], [], some (max 5 args_default.poll_interval)⟩ :=
  head_error_sleeps_and_retries checksum_id args_default st_c8 env_c8 "connection reset" rfl

/-- C4 (counterexample): with a record for address `0xAbCd` stored under
chain `eth`, inserting the same address (in different letter case) under
chain `bsc` is a no-op — the store keeps exactly one record, refuting
the claim that a second, distinct record is stored. -/
theorem cross_chain_dedup_cex :
    db_one.rows.length = 1 ∧
    (∃ r ∈ db_one.rows, r.chain = "eth" ∧ r.address = "0xabcd") ∧
    save_token db_one d_bsc = db_one ∧
    d_bsc.chain = "bsc" ∧ py_lower d_bsc.address = py_lower d_eth.address := by
  decide

/-- C4 (amended): the duplicate check and the uniqueness constraint are
keyed by address alone; inserting data for an already-recorded address
is a no-op under every chain label. -/
theorem dedup_ignores_chain :
    ∀ (db : TokensDb) (d : TokenData) (c : String),
      already_seen db d.address = true →
      save_token db { d with chain := c } = db := by
  intro db d c h
  simp only [already_seen] at h
  simp [save_token, h]

/-- C4 (witness): the amended statement applied to the one-record store. -/
theorem dedup_ignores_chain_witness :
    save_token db_one { d_eth with chain := "bsc" } = db_one :=
  dedup_ignores_chain db_one d_eth "bsc" (by decide)

/-- C5 (counterexample): a candidate whose probed name is the empty
string has its name field present, so the claim's presence-based
disjunction accepts it, but the code rejects it —
the claimed iff fails at this input. -/
theorem plausibility_presence_cex :
    d_empty_name.name.isSome = true ∧
    presence_spec_filter d_empty_name = true ∧
    looks_like_token d_empty_name = false := by
  decide

/-- C5 (amended): a candidate passes the recording filter iff its name or symbol is
present and non-empty, or its decimals field is present, or it has
transfer logs; a ProbeResult with only name `Foo` passes, one with
every field absent and no transfer logs is not, and such an implausible
candidate is stored only under the save-all override. -/
theorem plausibility_amended :
    (∀ d : TokenData, looks_like_token d = true ↔
       ((∃ s, d.name = some s ∧ s ≠ "") ∨ (∃ s, d.symbol = some s ∧ s ≠ "") ∨
        d.decimals.isSome = true ∨ d.has_transfer_logs = true)) ∧
    looks_like_token d_foo = true ∧
    looks_like_token d_absent = false ∧
    process_tx checksum_id args_default ctx0 tx_no_metadata init_db = (init_db, false) ∧
    (process_tx checksum_id args_saveall ctx0 tx_no_metadata init_db).1.rows.length = 1 := by
  refine ⟨?_, by decide, by decide, by decide, by decide⟩
  intro d
  cases hn : d.name <;> cases hs : d.symbol <;> cases hd : d.decimals <;>
    cases ht : d.has_transfer_logs <;>
      simp [looks_like_token, truthyStr, hn, hs, hd, ht]

/-- C10: the plausibility judgment tests name and symbol by truthiness
and decimals by presence: empty-string name or symbol with everything
else absent fails the filter (and such a candidate is not recorded in
default mode), while decimals 0 alone passes it. -/
theorem plausibility_truthiness :
    looks_like_token d_empty_name = false ∧
    looks_like_token d_empty_symbol = false ∧
    looks_like_token d_dec0 = true ∧
    process_tx checksum_id args_default ctx0 tx_empty_name init_db = (init_db, false) := by
  decide

/-- C6: for every behaviour of the underlying RPC calls, including
exceptions, `inspect_contract` returns a ProbeResult (it is a total
function of the call outcomes): each failed metadata call appears as an
absent field, each successful call as the present value, and a failed
log query leaves the transfer-log flag false with the exception text
recorded as an auxiliary error note. -/
theorem inspect_contract_no_raise (b : RpcBehavior) :
    (inspect_contract b).name = (match b.nameCall with | .ok v => some v | .error _ => none) ∧
    (inspect_contract b).symbol = (match b.symbolCall with | .ok v => some v | .error _ => none) ∧
    (inspect_contract b).decimals = (match b.decimalsCall with | .ok v => some v | .error _ => none) ∧
    (inspect_contract b).total_supply = (match b.totalSupplyCall with | .ok v => some (toString v) | .error _ => none) ∧
    (inspect_contract b).has_transfer_logs = (match b.getLogs with | .ok n => decide (0 < n) | .error _ => false) ∧
    (inspect_contract b).extra_json = (match b.getLogs with | .ok n => ⟨some n, none⟩ | .error e => ⟨none, some e⟩) := by
  obtain ⟨n, s, d, t, g⟩ := b
  cases n <;> cases s <;> cases d <;> cases t <;> cases g <;>
    exact ⟨rfl, rfl, rfl, rfl, rfl, rfl⟩

end TokenScanner

namespace FileUtils

/-- C9: `split_novel_by_chapters` always returns a non-empty chapter
list (it is a total function of the file and splitting outcomes, so no
exception propagates); when the read or the chapter computation fails
the fallback returns the re-read document as one chapter, and an empty
chapter computation is replaced by the whole document as one chapter. -/
theorem split_chapters_total_fallback (env : SplitEnv) :
    1 ≤ (split_novel_by_chapters env).length ∧
    (∀ e doc, env.readFile = .error e → env.rereadFile = .ok doc →
      split_novel_by_chapters env = [doc]) ∧
    (∀ c e doc, env.readFile = .ok c → env.splitBody c = .error e →
      env.rereadFile = .ok doc → split_novel_by_chapters env = [doc]) ∧
    (∀ c, env.readFile = .ok c → env.splitBody c = .ok [] →
      split_novel_by_chapters env = [c]) := by
  refine ⟨?_, ?_, ?_, ?_⟩
  · unfold split_novel_by_chapters fallback_chapter
    cases h1 : env.readFile with
    | error e => cases h2 : env.rereadFile <;> simp
    | ok c =>
      cases h2 : env.splitBody c with
      | error e =>
        simp only [h2]
        cases h3 : env.rereadFile <;> simp
      | ok chapters =>
        simp only [h2]
        by_cases hc : chapters = []
        · simp [hc]
        · simp only [if_neg hc]
          exact List.length_pos.mpr hc
  · intro e doc h1 h2
    simp [split_novel_by_chapters, fallback_chapter, h1, h2]
  · intro c e doc h1 h2 h3
    simp [split_novel_by_chapters, fallback_chapter, h1, h2, h3]
  · intro c h1 h2
    simp [split_novel_by_chapters, h1, h2]

/-- C9 (witness): the fallback applied to a readable file whose chapter
computation raises returns the whole document as a single chapter. -/
theorem split_chapters_total_fallback_witness :
    split_novel_by_chapters env_split = ["Chapter 1 text"] :=
  (split_chapters_total_fallback env_split).2.2.1 "Chapter 1 text" "regex failure"
    "Chapter 1 text" rfl rfl rfl

end FileUtils

namespace TokenScanner

/-- The accumulator of `List.foldl max` never decreases. -/
lemma le_foldl_max (l : List Int) : ∀ b : Int, b ≤ l.foldl max b := by
  induction l with
  | nil => intro b; simp
  | cons x xs ih =>
    intro b
    exact le_trans (le_max_left b x) (ih (max b x))

/-- `int_range` lists strictly increasing heights. -/
lemma int_range_pairwise (lo hi : Int) : (int_range lo hi).Pairwise (· < ·) := by
  unfold int_range
  rw [List.pairwise_map]
  refine (List.pairwise_lt_range _).imp ?_
  intro a b hab
  show lo + Int.ofNat a < lo + Int.ofNat b
  exact add_lt_add_left (Int.ofNat_lt.mpr hab) lo

/-- Every height of `int_range lo hi` is at least `lo`. -/
lemma int_range_lower {lo hi b : Int} (hb : b ∈ int_range lo hi) : lo ≤ b := by
  unfold int_range at hb
  rcases List.mem_map.mp hb with ⟨i, hi, rfl⟩
  exact le_add_of_nonneg_right (Int.ofNat_nonneg i)

/-- Watermark characterization of the height loop: over a strictly
increasing height list all above the incoming watermark, the final
watermark is the fold of `max` over the heights that completed
processing — a failed fetch is simply absent from that list, so later
successful heights still advance the watermark past it. -/
lemma height_loop_lpb (cf : String → String) (args : Args) (target : Int) (env : TickEnv) :
    ∀ (hs : List Int) (lpb : Int) (db : TokensDb),
      hs.Pairwise (· < ·) → (∀ b ∈ hs, lpb < b) →
      (height_loop cf args target env hs lpb db).lpb =
        (height_loop cf args target env hs lpb db).processed.foldl max lpb := by
  intro hs
  induction hs with
  | nil => intro lpb db _ _; simp [height_loop]
  | cons blk rest ih =>
    intro lpb db hpw hlt
    cases hb : env.blocks blk with
    | error e =>
      simp only [height_loop, hb]
      exact ih lpb db hpw.of_cons (fun b hbm => hlt b (List.mem_cons_of_mem _ hbm))
    | ok block =>
      simp only [height_loop, hb]
      cases hp : process_txs cf args ⟨blk, target, block.timestamp⟩ block.transactions db with
      | mk db' stopped =>
        cases stopped with
        | true => simp [hp]
        | false =>
          simp only [hp]
          have hmax : max lpb blk = blk := max_eq_right (le_of_lt (hlt blk (List.mem_cons_self _ _)))
          simp only [List.foldl_cons, hmax]
          exact ih blk db' hpw.of_cons ((List.pairwise_cons.mp hpw).1)

/-- C1 (counterexample): with watermark 95 and safe range 96-98 where
the fetch of block 96 fails but 97 and 98 succeed, the tick ends with
the watermark at 98 — advanced past the failed height 96, which was
never processed and, the next tick starting at 99, is never retried. -/
theorem watermark_skips_failed_height_cex :
    env_c1.blocks 96 = Except.error "rpc timeout" ∧
    (main_tick checksum_id args_c1 st_c1 env_c1).failedFetch = [96] ∧
    (main_tick checksum_id args_c1 st_c1 env_c1).processed = [97, 98] ∧
    (main_tick checksum_id args_c1 st_c1 env_c1).state.last_processed_block = some 98 ∧
    st_c1.last_processed_block = some 95 := by
  decide

/-- C1 (amended): the watermark is monotonically non-decreasing, and
after a tick whose head read returned `latest` it equals the fold of
`max` over the heights whose block was fetched and fully iterated,
starting from the effective pre-tick watermark — so a height whose
fetch failed holds the watermark back only if no later height in the
same tick succeeded, and is otherwise permanently skipped. -/
theorem tick_watermark_characterization (cf : String → String) (args : Args)
    (st : ScannerState) (env : TickEnv) :
    (∀ w, st.last_processed_block = some w →
       ∃ w', (main_tick cf args st env).state.last_processed_block = some w' ∧ w ≤ w') ∧
    (∀ latest, env.blockNumber = Except.ok latest →
       (main_tick cf args st env).state.last_processed_block =
         some ((main_tick cf args st env).processed.foldl max
           (st.last_processed_block.getD (latest - 1)))) := by
  have key : ∀ latest, env.blockNumber = Except.ok latest →
      (main_tick cf args st env).state.last_processed_block =
        some ((main_tick cf args st env).processed.foldl max
          (st.last_processed_block.getD (latest - 1))) := by
    intro latest h
    unfold main_tick
    rw [h]
    simp only []
    by_cases h1 : latest ≤ st.last_processed_block.getD (latest - 1)
    · simp [h1]
    · simp only [if_neg h1]
      by_cases h2 : latest - args.confirmations + 1 ≤ st.last_processed_block.getD (latest - 1)
      · simp [h2]
      · simp only [if_neg h2]
        have hchar := height_loop_lpb cf args (latest - args.confirmations + 1) env
          (int_range (st.last_processed_block.getD (latest - 1) + 1)
            (latest - args.confirmations + 1))
          (st.last_processed_block.getD (latest - 1)) st.db
          (int_range_pairwise _ _)
          (fun b hb => lt_of_lt_of_le (lt_add_one _) (int_range_lower hb))
        split
        · simpa using hchar
        · split
          · simpa using hchar
          · simpa using hchar
  refine ⟨?_, key⟩
  intro w hw
  cases hbn : env.blockNumber with
  | error e =>
    refine ⟨w, ?_, le_refl w⟩
    simp only [main_tick, hbn]
    exact hw
  | ok latest =>
    have hk := key latest hbn
    rw [hw] at hk
    exact ⟨_, hk, le_foldl_max _ w⟩

/-- C1 (witness): the amended characterization applied to the concrete
tick in which block 96 fails: monotonicity from watermark 95, and the
fold characterization for head height 98. -/
theorem tick_watermark_characterization_witness :
    (∃ w', (main_tick checksum_id args_c1 st_c1 env_c1).state.last_processed_block = some w' ∧
       95 ≤ w') ∧
    (main_tick checksum_id args_c1 st_c1 env_c1).state.last_processed_block =
      some ((main_tick checksum_id args_c1 st_c1 env_c1).processed.foldl max
        (st_c1.last_processed_block.getD (98 - 1))) :=
  ⟨(tick_watermark_characterization checksum_id args_c1 st_c1 env_c1).1 95 rfl,
   (tick_watermark_characterization checksum_id args_c1 st_c1 env_c1).2 98 rfl⟩

/-- Processing a transaction whose candidate address (if any) is already
recorded leaves the store untouched and never stops the loop. -/
lemma process_tx_seen (cf : String → String) (args : Args) (ctx : BlockCtx)
    (tx : Tx) (db : TokensDb) (h : tx_candidate_ok cf db tx) :
    process_tx cf args ctx tx db = (db, false) := by
  unfold process_tx
  cases hto : tx.to_addr with
  | some a => rfl
  | none =>
    cases hrc : tx.receipt with
    | error e => rfl
    | ok rc =>
      simp only [hrc]
      cases hra : resolved_contract_address rc with
      | none => rfl
      | some a =>
        have hseen := h hto rc hrc a hra
        simp [hseen]

/-- Processing a transaction list all of whose candidates are already
recorded leaves the store untouched. -/
lemma process_txs_seen (cf : String → String) (args : Args) (ctx : BlockCtx) :
    ∀ (txs : List Tx) (db : TokensDb), (∀ tx ∈ txs, tx_candidate_ok cf db tx) →
      process_txs cf args ctx txs db = (db, false) := by
  intro txs
  induction txs with
  | nil => intro db _; rfl
  | cons tx rest ih =>
    intro db h
    unfold process_txs
    rw [process_tx_seen cf args ctx tx db (h tx (List.mem_cons_self _ _))]
    exact ih db (fun t ht => h t (List.mem_cons_of_mem _ ht))

/-- The height loop over blocks whose candidates are all recorded
leaves the store untouched and never hits the stop-at-count return. -/
lemma height_loop_seen (cf : String → String) (args : Args) (target : Int) (env : TickEnv)
    (db : TokensDb)
    (H : ∀ b block, env.blocks b = Except.ok block →
      ∀ tx ∈ block.transactions, tx_candidate_ok cf db tx) :
    ∀ (hs : List Int) (lpb : Int),
      (height_loop cf args target env hs lpb db).db = db ∧
      (height_loop cf args target env hs lpb db).stopped = false := by
  intro hs
  induction hs with
  | nil => intro lpb; exact ⟨rfl, rfl⟩
  | cons blk rest ih =>
    intro lpb
    cases hb : env.blocks blk with
    | error e =>
      simp only [height_loop, hb]
      exact ih lpb
    | ok block =>
      simp only [height_loop, hb]
      rw [process_txs_seen cf args ⟨blk, target, block.timestamp⟩ block.transactions db
        (fun tx htx => H blk block hb tx htx)]
      exact ih blk

/-- Rows pairwise differ in address in every reachable store. -/
lemma reachable_addr_pairwise {db : TokensDb} (h : Reachable db) :
    db.rows.Pairwise (fun r s => r.address ≠ s.address) := by
  induction h with
  | init => simp [init_db]
  | save db d hr ih =>
    unfold save_token
    by_cases hdup : (db.rows.any fun r => r.address == py_lower d.address) = true
    · rw [if_pos hdup]
      exact ih
    · have hall : ∀ r ∈ db.rows, ¬ r.address = py_lower d.address := by
        simpa [List.any_eq_true] using hdup
      rw [if_neg hdup]
      show List.Pairwise _ (db.rows ++ [row_of_data db.nextId d])
      rw [List.pairwise_append]
      refine ⟨ih, List.pairwise_singleton _ _, ?_⟩
      intro r hr s hs
      simp only [List.mem_singleton] at hs
      subst hs
      exact hall r hr

/-- A filter selecting only rows of one fixed address keeps at most one
row of an address-pairwise-distinct list. -/
lemma filter_unique_len :
    ∀ (l : List TokenRow), l.Pairwise (fun r s => r.address ≠ s.address) →
      ∀ (p : TokenRow → Bool) (a : String), (∀ r, p r = true → r.address = a) →
      (l.filter p).length ≤ 1 := by
  intro l
  induction l with
  | nil => intro _ p a _; simp
  | cons x xs ih =>
    intro hpw p a hp
    by_cases hx : p x = true
    · rw [List.filter_cons_of_pos hx]
      have hnil : xs.filter p = [] := by
        rw [List.filter_eq_nil_iff]
        intro y hy hpy
        exact (List.pairwise_cons.mp hpw).1 y hy ((hp x hx).trans (hp y hpy).symm)
      simp [hnil]
    · rw [List.filter_cons_of_neg (by simpa using hx)]
      exact ih hpw.of_cons p a hp

/-- C3: deduplication invariants of the Discovery Store.  (1) In every
store reachable through `save_token`, at most one record exists per
(chain, address) pair.  (2) Saving data for an already-seen address is a
no-op that updates nothing.  (3) The seen-check is insensitive to
letter case.  (4) A tick over blocks whose candidate addresses are all
already recorded — a re-scan of a processed range with a pre-populated
store — inserts zero additional records. -/
theorem store_dedup_invariants :
    (∀ db, Reachable db → ∀ c a,
       (db.rows.filter (fun r => r.chain == c && r.address == a)).length ≤ 1) ∧
    (∀ db (d : TokenData), already_seen db d.address = true → save_token db d = db) ∧
    (∀ db a b, py_lower a = py_lower b → already_seen db a = already_seen db b) ∧
    (∀ (cf : String → String) (args : Args) (st : ScannerState) (env : TickEnv),
       tick_candidates_seen cf st.db env →
       (main_tick cf args st env).state.db = st.db) := by
  refine ⟨?_, ?_, ?_, ?_⟩
  · intro db hr c a
    refine filter_unique_len db.rows (reachable_addr_pairwise hr) _ a ?_
    intro r hpr
    simp only [Bool.and_eq_true, beq_iff_eq] at hpr
    exact hpr.2
  · intro db d h
    simp only [already_seen] at h
    simp [save_token, h]
  · intro db a b h
    simp [already_seen, h]
  · intro cf args st env H
    cases hbn : env.blockNumber with
    | error e => simp [main_tick, hbn]
    | ok latest =>
      unfold main_tick
      rw [hbn]
      simp only []
      by_cases h1 : latest ≤ st.last_processed_block.getD (latest - 1)
      · simp [h1]
      · simp only [if_neg h1]
        by_cases h2 : latest - args.confirmations + 1 ≤ st.last_processed_block.getD (latest - 1)
        · simp [h2]
        · simp only [if_neg h2]
          have hdb := height_loop_seen cf args (latest - args.confirmations + 1) env st.db H
            (int_range (st.last_processed_block.getD (latest - 1) + 1)
              (latest - args.confirmations + 1))
            (st.last_processed_block.getD (latest - 1))
          split
          · simpa using hdb.1
          · split
            · simpa using hdb.1
            · simpa using hdb.1

/-- C3 (witness): the invariants applied to the one-record store: the
(eth, 0xabcd) filter keeps at most one row, re-saving the recorded
address is a no-op, the seen-check ignores case, and a concrete re-scan
tick over a block carrying the recorded candidate leaves the store
unchanged. -/
theorem store_dedup_invariants_witness :
    ((db_one.rows.filter (fun r => r.chain == "eth" && r.address == "0xabcd")).length ≤ 1) ∧
    save_token db_one d_eth = db_one ∧
    already_seen db_one "0xabcd" = already_seen db_one "0xABCD" ∧
    (main_tick checksum_id args_default st_c3 env_c3).state.db = st_c3.db :=
  ⟨store_dedup_invariants.1 db_one (Reachable.save init_db d_eth Reachable.init) "eth" "0xabcd",
   store_dedup_invariants.2.1 db_one d_eth (by decide),
   store_dedup_invariants.2.2.1 db_one "0xabcd" "0xABCD" (by decide),
   store_dedup_invariants.2.2.2 checksum_id args_default st_c3 env_c3 (by
     intro b block hb tx htx
     injection hb with hbk
     subst hbk
     simp only [blk_c3, List.mem_singleton] at htx
     subst htx
     intro hto rc hrc a hra
     injection hrc with hrc2
     subst hrc2
     simp only [resolved_contract_address, truthyStr] at hra
     simp only [show (("0xAbCd" == "") = false) from rfl] at hra
     simp only [Bool.not_false, if_true, Option.some.injEq] at hra
     subst hra
     decide)⟩

/-- Row ids are strictly increasing along every reachable store, and
bounded by the next id. -/
lemma reachable_ids {db : TokensDb} (h : Reachable db) :
    db.rows.Pairwise (fun r s => r.id < s.id) ∧ ∀ r ∈ db.rows, r.id < db.nextId := by
  induction h with
  | init => simp [init_db]
  | save db d hr ih =>
    unfold save_token
    by_cases hdup : (db.rows.any fun r => r.address == py_lower d.address) = true
    · rw [if_pos hdup]
      exact ih
    · rw [if_neg hdup]
      constructor
      · show List.Pairwise _ (db.rows ++ [row_of_data db.nextId d])
        rw [List.pairwise_append]
        refine ⟨ih.1, List.pairwise_singleton _ _, ?_⟩
        intro r hr s hs
        simp only [List.mem_singleton] at hs
        subst hs
        exact ih.2 r hr
      · show ∀ r ∈ db.rows ++ [row_of_data db.nextId d], r.id < db.nextId + 1
        intro r hr
        rcases List.mem_append.mp hr with hl | hl
        · exact Nat.lt_succ_of_lt (ih.2 r hl)
        · simp only [List.mem_singleton] at hl
          subst hl
          exact Nat.lt_succ_self _
/-- Inserting below every element of a list places the element in
front. -/
lemma insertById_of_lt (x : TokenRow) (l : List TokenRow)
    (h : ∀ y ∈ l, x.id < y.id) : insertById x l = x :: l := by
  cases l with
  | nil => rfl
  | cons y ys =>
    unfold insertById
    rw [if_pos (le_of_lt (h y (List.mem_cons_self _ _)))]

/-- Sorting by id is the identity on an id-sorted list. -/
lemma sortById_sorted (l : List TokenRow) (h : l.Pairwise (fun r s => r.id < s.id)) :
    sortById l = l := by
  induction l with
  | nil => rfl
  | cons x xs ih =>
    have hx : sortById (x :: xs) = insertById x (sortById xs) := rfl
    rw [hx, ih h.of_cons, insertById_of_lt x xs (List.pairwise_cons.mp h).1]

/-- C7: every export call is a pure function of the store — the output
is identical whatever the two artifacts held before (write mode, no
append) — and both artifacts contain exactly the store's records in
insertion (id) order: the tabular rows and the structured objects are
the record list mapped through one shared fixed column order. -/
theorem export_reflects_store :
    ∀ db, Reachable db →
      ∀ (pc pc' : CsvFile) (pj pj' : JsonContent),
        export_csv_json db pc pj = export_csv_json db pc' pj' ∧
        (export_csv_json db pc pj).1.header = export_headers ∧
        (export_csv_json db pc pj).1.rows = db.rows.map rowToValues ∧
        (export_csv_json db pc pj).2 =
          db.rows.map (fun r => export_headers.zip (rowToValues r)) := by
  intro db h pc pc' pj pj'
  have hs : sortById db.rows = db.rows := sortById_sorted db.rows (reachable_ids h).1
  refine ⟨rfl, rfl, ?_, ?_⟩
  · simp [export_csv_json, hs]
  · simp [export_csv_json, hs, List.map_map, Function.comp]

/-- C7 (witness): the export of the one-record store ignores stale
previous artifact contents and lists exactly the store's rows. -/
theorem export_reflects_store_witness :
    (export_csv_json db_one csv_stale []).1.rows = db_one.rows.map rowToValues ∧
    export_csv_json db_one csv_stale [] =
      export_csv_json db_one csv_empty [[("stale", SqlValue.null)]] :=
  ⟨(export_reflects_store db_one (Reachable.save init_db d_eth Reachable.init)
      csv_stale csv_empty [] [[("stale", SqlValue.null)]]).2.2.1,
   (export_reflects_store db_one (Reachable.save init_db d_eth Reachable.init)
      csv_stale csv_empty [] [[("stale", SqlValue.null)]]).1⟩

end TokenScanner
